import Mathlib

/-!
Shallow embedding of `src/server.py` (monbot_crypto): a market-monitoring
loop that polls on-chain quotes, converts them to a USD market cap via a
cached MON/USD reference price, and fires an at-most-once sell of the TCG
token when the market cap crosses a threshold.

Modelling conventions:
* Python `float` / `Decimal` arithmetic is embedded as exact rational
  arithmetic over `ℚ`.
* Machine integers (uint256 balances, quotes, nonces) are embedded as `ℕ`;
  the `//` of Python on non-negative integers is `Nat` floor division.
* Network / chain reads are oracles packaged in environment structures; a
  call that may raise an exception is an `Option` (`none` = exception).
* Stateful code is explicit state passing; the polling loop is a step
  function on a `LoopState`, iterated over a list of per-cycle environments.
-/

namespace Monbot

/-! ### Configuration (`server.py` lines 10-23) -/

/-- `POLL_INTERVAL = 7` seconds between price checks. -/
def POLL_INTERVAL : ℕ := 7

/-- `TCG_SELL_AT = 900_000` — USD market-cap trigger. -/
def TCG_SELL_AT : ℚ := 900000

/-- `TOKENS`: monitored symbol ↦ contract address mapping, in the source
dict insertion order (TCG first, then FIRE, then MONA). -/
def TOKENS : List (String × String) :=
  [("TCG", "0x94CF69B5b13E621cB11f5153724AFb58c7337777"),
   ("FIRE", "0xCE1C9994331e1fd8E3B751De9Cf50c322BCb7777"),
   ("MONA", "0x2CB31c268819EE133De378A3A2E087F0b0eC7777")]

/-- The monitored tokens after TCG, in iteration order. -/
def tokensRest : List (String × String) :=
  [("FIRE", "0xCE1C9994331e1fd8E3B751De9Cf50c322BCb7777"),
   ("MONA", "0x2CB31c268819EE133De378A3A2E087F0b0eC7777")]

/-- `MON_PRICE_TTL = 60` seconds. -/
def MON_PRICE_TTL : ℚ := 60

/-- The 18-decimal fixed-point scale: `from_wei(x, "ether")` divides by
`10 ^ 18`, `ONE_MON = to_wei(1, "ether") = 10 ^ 18`. -/
def WEI : ℚ := 10 ^ 18

/-! ### Reference price cache (`get_mon_usd_price`, lines 100-134)

The cache is the pair `(price, fetched_at)`, initially `(0.0, 0.0)`.  The
two REST sources (Binance, then CoinGecko) are oracles: `some p` models a
successful fetch parsing to price `p`, `none` models any exception
(network error, non-2xx, unparseable payload). -/

structure PriceFetchEnv where
  now : ℚ
  binance : Option ℚ
  coingecko : Option ℚ

/-- `get_mon_usd_price`: return the cached price if it is younger than the
TTL; otherwise try Binance, then CoinGecko, overwriting the cache on
success; if both fail the exception propagates (`none`).  Returns the price
together with the updated cache. -/
def get_mon_usd_price (env : PriceFetchEnv) (cache : ℚ × ℚ) :
    Option (ℚ × (ℚ × ℚ)) :=
  if env.now - cache.2 < MON_PRICE_TTL then
    some (cache.1, cache)
  else
    match env.binance with
    | some p => some (p, (p, env.now))
    | none =>
      match env.coingecko with
      | some p => some (p, (p, env.now))
      | none => none

/-! ### Market data reader (`fetch_price`, lines 137-160)

The on-chain reads are an environment: the lens buy quote for the
`ONE_MON` probe (`amount_out`, raw 18-decimal units), the token
`totalSupply()` and the wallet `balanceOf(WALLET)` (both raw). -/

structure MarketEnv where
  amount_out : ℕ
  total_supply_raw : ℕ
  balance_raw : ℕ
  deriving DecidableEq

structure MarketSnapshot where
  market_cap_usd : ℚ
  owned_usd : ℚ
  deriving DecidableEq

/-- The Python expression `1 / x`, which raises `ZeroDivisionError` on `x = 0`. -/
def py_reciprocal (x : ℚ) : Option ℚ :=
  if x = 0 then none else some (1 / x)

/-- `tokens_per_mon = Web3.from_wei(amount_out, "ether")`. -/
def tokens_per_mon (amount_out : ℕ) : ℚ := (amount_out : ℚ) / WEI

/-- Line 144 exactly as written:
`mon_per_token = 1 / tokens_per_mon if tokens_per_mon else 0` — the
division is only evaluated under the truthiness guard. -/
def mon_per_token_checked (amount_out : ℕ) : Option ℚ :=
  if tokens_per_mon amount_out ≠ 0 then py_reciprocal (tokens_per_mon amount_out)
  else some 0

/-- The value line 144 computes (total function; the guard makes the
reciprocal safe). -/
def mon_per_token (amount_out : ℕ) : ℚ :=
  if tokens_per_mon amount_out ≠ 0 then 1 / tokens_per_mon amount_out else 0

/-- `fetch_price`: derive the unit price from the probe quote (guarded
reciprocal), then market cap `mon_per_token * total_supply * mon_usd` and
owned value `wallet_balance * mon_per_token * mon_usd`.  `none` would mean
an uncaught exception inside the function body. -/
def fetch_price (env : MarketEnv) (mon_usd : ℚ) : Option MarketSnapshot :=
  (mon_per_token_checked env.amount_out).map fun mpt =>
    let total_supply : ℚ := (env.total_supply_raw : ℚ) / WEI
    let market_cap_usd : ℚ := mpt * total_supply * mon_usd
    let wallet_balance : ℚ := (env.balance_raw : ℚ) / WEI
    ⟨market_cap_usd, wallet_balance * mpt * mon_usd⟩

/-! ### Sell executor (`sell_all_tcg`, lines 163-212)

The chain-side inputs are an environment (`balance`, the lens sell quote
`(router, mon_out)`, the current wall clock `now`), plus the externally
authoritative account transaction counter, modelled as a `ChainState`.
`w3.eth.get_transaction_count` reads that counter; a submitted transaction
whose receipt has been awaited is confirmed and consumes one nonce.  The
executor additionally yields a trace of the calls it makes, in program
order. -/

structure ChainState where
  txCount : ℕ
  deriving DecidableEq

/-- `w3.eth.get_transaction_count(WALLET)`. -/
def getTransactionCount (c : ChainState) : ℕ := c.txCount

/-- `send_raw_transaction` followed by `wait_for_transaction_receipt`: once
the receipt is in, the transaction is on-chain and has consumed one nonce
of the account. -/
def sendAndWaitReceipt (c : ChainState) : ChainState := ⟨c.txCount + 1⟩

structure SellEnv where
  balance : ℕ
  router : ℕ
  mon_out : ℕ
  now : ℕ
  deriving DecidableEq

inductive SellEvent
  | readBalance (b : ℕ)
  | quote (router mon_out : ℕ)
  | readNonce (n : ℕ)
  | submitApprove (spender amount nonce : ℕ)
  | waitReceipt
  | submitSell (amountIn amountOutMin deadline nonce : ℕ)
  deriving DecidableEq

inductive SellOutcome
  | nothingToSell
  | sold
  deriving DecidableEq

/-- Line 174: `amount_out_min = int(mon_out * 95 // 100)` — 5% slippage
tolerance with Python integer floor division (`ℕ` division here). -/
def amount_out_min (mon_out : ℕ) : ℕ := mon_out * 95 / 100

/-- `sell_all_tcg`: read the balance (early return when it is zero), get
the sell quote, apply slippage, build/sign/submit the approval with the
current nonce and wait for its receipt, then build the sell with a freshly
read nonce, submit it and wait for its receipt. -/
def sell_all_tcg (env : SellEnv) (c0 : ChainState) :
    SellOutcome × ChainState × List SellEvent :=
  if env.balance = 0 then
    (.nothingToSell, c0, [.readBalance env.balance])
  else
    let minOut := amount_out_min env.mon_out
    let deadline := env.now + 300
    let n1 := getTransactionCount c0
    let c1 := sendAndWaitReceipt c0
    let n2 := getTransactionCount c1
    let c2 := sendAndWaitReceipt c1
    (.sold, c2,
      [.readBalance env.balance,
       .quote env.router env.mon_out,
       .readNonce n1,
       .submitApprove env.router env.balance n1,
       .waitReceipt,
       .readNonce n2,
       .submitSell env.balance minOut deadline n2,
       .waitReceipt])

def isSubmitEvent : SellEvent → Bool
  | .submitApprove _ _ _ => true
  | .submitSell _ _ _ _ => true
  | _ => false

/-- Number of transactions submitted in a sell trace. -/
def submitCount (tr : List SellEvent) : ℕ := tr.countP isSubmitEvent

/-- The `amountOutMin` fields of the sell transactions in a trace. -/
def sellMinOuts (tr : List SellEvent) : List ℕ :=
  tr.filterMap fun e =>
    match e with
    | .submitSell _ m _ _ => some m
    | _ => none

/-! ### Trigger controller (`main`, lines 215-251)

One poll cycle is a function of the loop state (the `tcg_sold` flag, the
last known MON/USD price, the price cache) and a cycle environment: the
price-fetch oracles, the per-token outcome of `fetch_price` (which depends
on the MON/USD price passed to it; `none` = exception, caught per token),
and, for each inner sell attempt `1..3`, either `none` (= `sell_all_tcg`
raised) or `some e` (= it ran to completion on chain data `e`).  The cycle
also yields a trace of per-token reads and executor invocations. -/

inductive CycleEv
  | tokenRead (symbol : String) (mcap : ℚ)
  | tokenError (symbol : String)
  | sellInvoke (attempt : ℕ)
  | sleepRetry (secs : ℕ)
  deriving DecidableEq

def isInvoke : CycleEv → Bool
  | .sellInvoke _ => true
  | _ => false

/-- Number of sell-executor invocations in a cycle trace. -/
def invokeCount (tr : List CycleEv) : ℕ := tr.countP isInvoke

/-- `range(1, 4)` — the inner retry attempt numbers. -/
def attemptRange : List ℕ := [1, 2, 3]

/-- The `for attempt in range(1, 4)` retry loop around `sell_all_tcg()`:
stop (breaking with success) at the first attempt that returns normally;
after a failed attempt sleep 3 seconds when `attempt < 3`.  Returns
whether any attempt succeeded together with the trace. -/
def runAttempts (runs : ℕ → Option SellEnv) : List ℕ → Bool × List CycleEv
  | [] => (false, [])
  | a :: rest =>
    match runs a with
    | some _ => (true, [.sellInvoke a])
    | none =>
      ((runAttempts runs rest).1,
       .sellInvoke a ::
         ((if a < 3 then [CycleEv.sleepRetry 3] else []) ++ (runAttempts runs rest).2))

structure LoopState where
  tcg_sold : Bool
  mon_usd : ℚ
  cache : ℚ × ℚ
  deriving DecidableEq

structure CycleEnv where
  price : PriceFetchEnv
  fetchResult : String → ℚ → Option ℚ
  sellRuns : ℕ → Option SellEnv

/-- The MON/USD price used during a cycle: the refreshed value on success,
else the last known value (the `except` branch at lines 228-229). -/
def cycleMon (s : LoopState) (env : CycleEnv) : ℚ :=
  match get_mon_usd_price env.price s.cache with
  | some (p, _) => p
  | none => s.mon_usd

/-- The price cache after a cycle (unchanged when the refresh failed). -/
def cycleCache (s : LoopState) (env : CycleEnv) : ℚ × ℚ :=
  match get_mon_usd_price env.price s.cache with
  | some (_, c) => c
  | none => s.cache

/-- The `for symbol, address in TOKENS.items()` body: each per-token
`fetch_price` is wrapped in its own `try`/`except` (a failure only logs an
error line for that token); on a successful read of TCG with the sold flag
unset and market cap at or above the trigger, the bounded retry loop runs
and the flag is set if it succeeded. -/
def cycleTokens (f : String → ℚ → Option ℚ) (runs : ℕ → Option SellEnv)
    (mon_usd : ℚ) : List (String × String) → Bool → Bool × List CycleEv
  | [], sold => (sold, [])
  | (symbol, _) :: rest, sold =>
    match f symbol mon_usd with
    | none =>
      ((cycleTokens f runs mon_usd rest sold).1,
       .tokenError symbol :: (cycleTokens f runs mon_usd rest sold).2)
    | some mcap =>
      if symbol = "TCG" ∧ sold = false ∧ TCG_SELL_AT ≤ mcap then
        ((cycleTokens f runs mon_usd rest
            (if (runAttempts runs attemptRange).1 then true else sold)).1,
         .tokenRead symbol mcap ::
           ((runAttempts runs attemptRange).2 ++
            (cycleTokens f runs mon_usd rest
              (if (runAttempts runs attemptRange).1 then true else sold)).2))
      else
        ((cycleTokens f runs mon_usd rest sold).1,
         .tokenRead symbol mcap :: (cycleTokens f runs mon_usd rest sold).2)

/-- One iteration of the `while True` polling loop. -/
def cycle (s : LoopState) (env : CycleEnv) : LoopState × List CycleEv :=
  (⟨(cycleTokens env.fetchResult env.sellRuns (cycleMon s env) TOKENS s.tcg_sold).1,
    cycleMon s env, cycleCache s env⟩,
   (cycleTokens env.fetchResult env.sellRuns (cycleMon s env) TOKENS s.tcg_sold).2)

/-- The polling loop run over a finite prefix of cycle environments,
collecting the trace of each cycle. -/
def run (s : LoopState) : List CycleEnv → LoopState × List (List CycleEv)
  | [] => (s, [])
  | e :: es =>
    ((run (cycle s e).1 es).1, (cycle s e).2 :: (run (cycle s e).1 es).2)

/-! ### Concrete data for witnesses -/

/-- A sell environment whose wallet balance is zero. -/
def envZeroBalance : SellEnv := ⟨0, 7, 1000, 50⟩

/-- A sell environment with a nonzero balance. -/
def envLive : SellEnv := ⟨5, 7, 1234, 50⟩

/-- A cycle environment whose TCG read is far above the trigger and whose
sell attempts all return normally (on zero-balance chain data). -/
def envHighCap : CycleEnv :=
  ⟨⟨100, some 7, none⟩,
   fun symbol _ => if symbol = "TCG" then some 1000000 else some 5,
   fun _ => some envZeroBalance⟩

/-- A cycle environment where the TCG read raises but MONA reads fine. -/
def envTcgFails : CycleEnv :=
  ⟨⟨100, none, none⟩,
   fun symbol _ => if symbol = "TCG" then none else some 5,
   fun _ => none⟩

/-- A cycle environment whose TCG read is far above the trigger but whose
sell attempts all raise. -/
def envTriggerAllFail : CycleEnv :=
  ⟨⟨100, some 7, none⟩,
   fun symbol _ => if symbol = "TCG" then some 1000000 else some 5,
   fun _ => none⟩

/-- A loop state whose sold flag is already set. -/
def stateSold : LoopState := ⟨true, 5, (5, 40)⟩

/-- A loop state at the start of a run (flag unset). -/
def stateFresh : LoopState := ⟨false, 5, (5, 40)⟩

/-! ### Supporting lemmas -/

theorem mon_per_token_checked_eq (a : ℕ) :
    mon_per_token_checked a = some (mon_per_token a) := by
  unfold mon_per_token_checked mon_per_token py_reciprocal
  by_cases h : tokens_per_mon a = 0 <;> simp [h]

theorem fetch_price_eq (env : MarketEnv) (mon_usd : ℚ) :
    fetch_price env mon_usd =
      some ⟨mon_per_token env.amount_out * ((env.total_supply_raw : ℚ) / WEI) * mon_usd,
            ((env.balance_raw : ℚ) / WEI) * mon_per_token env.amount_out * mon_usd⟩ := by
  rw [fetch_price, mon_per_token_checked_eq]
  rfl

theorem min_out_floor (Q : ℕ) :
    ((Q * 95 / 100 : ℕ) : ℤ) = ⌊((Q : ℚ) * 95) / 100⌋ := by
  have h1 : ((Q : ℚ) * 95) = ((Q * 95 : ℕ) : ℚ) := by push_cast; ring
  have h2 : ((100 : ℚ)) = ((100 : ℕ) : ℚ) := by norm_num
  rw [h1, h2, Rat.floor_natCast_div_natCast, Int.natCast_div]

theorem invokeCount_cons_of_not (e : CycleEv) (tr : List CycleEv)
    (h : isInvoke e = false) : invokeCount (e :: tr) = invokeCount tr := by
  rw [invokeCount, invokeCount, List.countP_cons, h]
  simp

theorem invokeCount_append (l1 l2 : List CycleEv) :
    invokeCount (l1 ++ l2) = invokeCount l1 + invokeCount l2 := by
  rw [invokeCount, invokeCount, invokeCount, List.countP_append]

theorem runAttempts_one (runs : ℕ → Option SellEnv) (e : SellEnv)
    (h1 : runs 1 = some e) :
    runAttempts runs attemptRange = (true, [.sellInvoke 1]) := by
  simp [attemptRange, runAttempts, h1]

theorem runAttempts_two (runs : ℕ → Option SellEnv) (e : SellEnv)
    (h1 : runs 1 = none) (h2 : runs 2 = some e) :
    runAttempts runs attemptRange =
      (true, [.sellInvoke 1, .sleepRetry 3, .sellInvoke 2]) := by
  simp [attemptRange, runAttempts, h1, h2]

theorem runAttempts_three (runs : ℕ → Option SellEnv) (e : SellEnv)
    (h1 : runs 1 = none) (h2 : runs 2 = none) (h3 : runs 3 = some e) :
    runAttempts runs attemptRange =
      (true, [.sellInvoke 1, .sleepRetry 3, .sellInvoke 2, .sleepRetry 3,
              .sellInvoke 3]) := by
  simp [attemptRange, runAttempts, h1, h2, h3]

theorem runAttempts_all_fail (runs : ℕ → Option SellEnv)
    (h1 : runs 1 = none) (h2 : runs 2 = none) (h3 : runs 3 = none) :
    runAttempts runs attemptRange =
      (false, [.sellInvoke 1, .sleepRetry 3, .sellInvoke 2, .sleepRetry 3,
               .sellInvoke 3]) := by
  simp [attemptRange, runAttempts, h1, h2, h3]

theorem runAttempts_le_three (runs : ℕ → Option SellEnv) :
    invokeCount (runAttempts runs attemptRange).2 ≤ 3 := by
  cases h1 : runs 1 with
  | some e => rw [runAttempts_one runs e h1]; decide
  | none =>
    cases h2 : runs 2 with
    | some e => rw [runAttempts_two runs e h1 h2]; decide
    | none =>
      cases h3 : runs 3 with
      | some e => rw [runAttempts_three runs e h1 h2 h3]; decide
      | none => rw [runAttempts_all_fail runs h1 h2 h3]; decide

theorem cycleTokens_sold_true (f : String → ℚ → Option ℚ)
    (runs : ℕ → Option SellEnv) (m : ℚ) :
    ∀ toks : List (String × String),
      (cycleTokens f runs m toks true).1 = true ∧
      invokeCount (cycleTokens f runs m toks true).2 = 0
  | [] => by simp [cycleTokens, invokeCount]
  | (sym, ad) :: rest => by
    have ih := cycleTokens_sold_true f runs m rest
    cases hf : f sym m with
    | none =>
      simp only [cycleTokens, hf]
      exact ⟨ih.1, by
        rw [invokeCount_cons_of_not (CycleEv.tokenError sym) _ rfl, ih.2]⟩
    | some q =>
      have hcond : ¬ (sym = "TCG" ∧ (true : Bool) = false ∧ TCG_SELL_AT ≤ q) := by
        simp
      simp only [cycleTokens, hf, if_neg hcond]
      exact ⟨ih.1, by
        rw [invokeCount_cons_of_not (CycleEv.tokenRead sym q) _ rfl, ih.2]⟩

theorem cycleTokens_no_tcg (f : String → ℚ → Option ℚ)
    (runs : ℕ → Option SellEnv) (m : ℚ) :
    ∀ (toks : List (String × String)) (sold : Bool),
      (∀ p ∈ toks, ¬ p.1 = "TCG") →
      (cycleTokens f runs m toks sold).1 = sold ∧
      invokeCount (cycleTokens f runs m toks sold).2 = 0
  | [], sold => by
    intro _
    simp [cycleTokens, invokeCount]
  | (sym, ad) :: rest, sold => by
    intro h
    have hsym : ¬ sym = "TCG" := h (sym, ad) (List.mem_cons_self _ _)
    have ih := cycleTokens_no_tcg f runs m rest sold
      (fun p hp => h p (List.mem_cons_of_mem _ hp))
    cases hf : f sym m with
    | none =>
      simp only [cycleTokens, hf]
      exact ⟨ih.1, by
        rw [invokeCount_cons_of_not (CycleEv.tokenError sym) _ rfl, ih.2]⟩
    | some q =>
      have hcond : ¬ (sym = "TCG" ∧ sold = false ∧ TCG_SELL_AT ≤ q) :=
        fun hc => hsym hc.1
      simp only [cycleTokens, hf, if_neg hcond]
      exact ⟨ih.1, by
        rw [invokeCount_cons_of_not (CycleEv.tokenRead sym q) _ rfl, ih.2]⟩

theorem cycle_sold (s : LoopState) (env : CycleEnv) (h : s.tcg_sold = true) :
    (cycle s env).1.tcg_sold = true ∧ invokeCount (cycle s env).2 = 0 := by
  have hmain := cycleTokens_sold_true env.fetchResult env.sellRuns (cycleMon s env) TOKENS
  simp only [cycle, h]
  exact hmain

theorem run_sold : ∀ (envs : List CycleEnv) (s : LoopState),
    s.tcg_sold = true →
    (run s envs).1.tcg_sold = true ∧
    (((run s envs).2.map invokeCount).sum = 0)
  | [], s => by
    intro h
    exact ⟨h, rfl⟩
  | e :: es, s => by
    intro h
    have hc := cycle_sold s e h
    have ih := run_sold es (cycle s e).1 hc.1
    simp only [run, List.map_cons, List.sum_cons]
    exact ⟨ih.1, by rw [hc.2, ih.2]⟩

theorem run_length : ∀ (envs : List CycleEnv) (s : LoopState),
    ((run s envs).2).length = envs.length
  | [], _ => rfl
  | e :: es, s => by
    simp only [run, List.length_cons]
    rw [run_length es]

theorem cycleTokens_cons_trigger (f : String → ℚ → Option ℚ)
    (runs : ℕ → Option SellEnv) (m : ℚ) (sym ad : String)
    (rest : List (String × String)) (q : ℚ) (sold : Bool)
    (hf : f sym m = some q)
    (hcond : sym = "TCG" ∧ sold = false ∧ TCG_SELL_AT ≤ q) :
    cycleTokens f runs m ((sym, ad) :: rest) sold =
      ((cycleTokens f runs m rest
          (if (runAttempts runs attemptRange).1 then true else sold)).1,
       .tokenRead sym q ::
         ((runAttempts runs attemptRange).2 ++
          (cycleTokens f runs m rest
            (if (runAttempts runs attemptRange).1 then true else sold)).2)) := by
  simp only [cycleTokens, hf, if_pos hcond]

theorem cycleTokens_tcg_first (f : String → ℚ → Option ℚ)
    (runs : ℕ → Option SellEnv) (m q : ℚ)
    (hf : f "TCG" m = some q) (hq : TCG_SELL_AT ≤ q) :
    (cycleTokens f runs m TOKENS false).1 = (runAttempts runs attemptRange).1 ∧
    invokeCount (cycleTokens f runs m TOKENS false).2 =
      invokeCount (runAttempts runs attemptRange).2 := by
  have hrest : ∀ p ∈ tokensRest, ¬ p.1 = "TCG" := by decide
  have hno := cycleTokens_no_tcg f runs m tokensRest
    (if (runAttempts runs attemptRange).1 then true else false) hrest
  have hT : TOKENS =
      ("TCG", "0x94CF69B5b13E621cB11f5153724AFb58c7337777") :: tokensRest := rfl
  have hcons := cycleTokens_cons_trigger f runs m "TCG"
    "0x94CF69B5b13E621cB11f5153724AFb58c7337777" tokensRest q false hf ⟨rfl, rfl, hq⟩
  rw [hT, hcons]
  dsimp only
  constructor
  · rw [hno.1]
    cases (runAttempts runs attemptRange).1 <;> rfl
  · rw [invokeCount_cons_of_not (CycleEv.tokenRead "TCG" q) _ rfl,
      invokeCount_append, hno.2]
    exact Nat.add_zero _

theorem cycle_trigger (s : LoopState) (env : CycleEnv) (q : ℚ)
    (h0 : s.tcg_sold = false)
    (hf : env.fetchResult "TCG" (cycleMon s env) = some q)
    (hq : TCG_SELL_AT ≤ q) :
    (cycle s env).1.tcg_sold = (runAttempts env.sellRuns attemptRange).1 ∧
    invokeCount (cycle s env).2 =
      invokeCount (runAttempts env.sellRuns attemptRange).2 := by
  have h := cycleTokens_tcg_first env.fetchResult env.sellRuns (cycleMon s env) q hf hq
  simp only [cycle, h0]
  exact h

theorem cycleTokens_invoke_sold (f : String → ℚ → Option ℚ)
    (runs : ℕ → Option SellEnv) (m : ℚ) (e : SellEnv) (h1 : runs 1 = some e) :
    ∀ (toks : List (String × String)) (sold : Bool) (j : ℕ),
      CycleEv.sellInvoke j ∈ (cycleTokens f runs m toks sold).2 →
      (cycleTokens f runs m toks sold).1 = true
  | [], sold, j => by
    intro hmem
    simp [cycleTokens] at hmem
  | (s1, a1) :: rest, sold, j => by
    intro hmem
    cases hf : f s1 m with
    | none =>
      simp only [cycleTokens, hf] at hmem ⊢
      rcases List.mem_cons.mp hmem with h | h
      · cases h
      · exact cycleTokens_invoke_sold f runs m e h1 rest sold j h
    | some q =>
      by_cases hcond : s1 = "TCG" ∧ sold = false ∧ TCG_SELL_AT ≤ q
      · simp only [cycleTokens, hf, if_pos hcond]
        rw [runAttempts_one runs e h1]
        exact (cycleTokens_sold_true f runs m rest).1
      · simp only [cycleTokens, hf, if_neg hcond] at hmem ⊢
        rcases List.mem_cons.mp hmem with h | h
        · cases h
        · exact cycleTokens_invoke_sold f runs m e h1 rest sold j h

theorem cycleTokens_covers (f : String → ℚ → Option ℚ)
    (runs : ℕ → Option SellEnv) (m : ℚ) :
    ∀ (toks : List (String × String)) (sold : Bool) (sym addr : String),
      (sym, addr) ∈ toks →
      (f sym m = none →
        CycleEv.tokenError sym ∈ (cycleTokens f runs m toks sold).2) ∧
      (∀ q, f sym m = some q →
        CycleEv.tokenRead sym q ∈ (cycleTokens f runs m toks sold).2)
  | [], sold, sym, addr => by
    intro hmem
    simp at hmem
  | (s1, a1) :: rest, sold, sym, addr => by
    intro hmem
    rcases List.mem_cons.mp hmem with heq | htail
    · injection heq with e1 e2
      subst e1
      cases hf : f sym m with
      | none =>
        constructor
        · intro _
          simp only [cycleTokens, hf]
          exact List.mem_cons_self _ _
        · intro q hq
          simp at hq
      | some q0 =>
        constructor
        · intro hn
          simp at hn
        · intro q hq
          injection hq with hq0
          subst hq0
          by_cases hcond : sym = "TCG" ∧ sold = false ∧ TCG_SELL_AT ≤ q0
          · simp only [cycleTokens, hf, if_pos hcond]
            exact List.mem_cons_self _ _
          · simp only [cycleTokens, hf, if_neg hcond]
            exact List.mem_cons_self _ _
    · cases hf1 : f s1 m with
      | none =>
        have ih := cycleTokens_covers f runs m rest sold sym addr htail
        simp only [cycleTokens, hf1]
        exact ⟨fun hn => List.mem_cons_of_mem _ (ih.1 hn),
               fun q hq => List.mem_cons_of_mem _ (ih.2 q hq)⟩
      | some q1 =>
        by_cases hcond : s1 = "TCG" ∧ sold = false ∧ TCG_SELL_AT ≤ q1
        · have ih := cycleTokens_covers f runs m rest
            (if (runAttempts runs attemptRange).1 then true else sold) sym addr htail
          simp only [cycleTokens, hf1, if_pos hcond]
          constructor
          · intro hn
            exact List.mem_cons_of_mem _ (List.mem_append_right _ (ih.1 hn))
          · intro q hq
            exact List.mem_cons_of_mem _ (List.mem_append_right _ (ih.2 q hq))
        · have ih := cycleTokens_covers f runs m rest sold sym addr htail
          simp only [cycleTokens, hf1, if_neg hcond]
          exact ⟨fun hn => List.mem_cons_of_mem _ (ih.1 hn),
                 fun q hq => List.mem_cons_of_mem _ (ih.2 q hq)⟩

theorem cycle_covers (s : LoopState) (env : CycleEnv) (sym addr : String)
    (hmem : (sym, addr) ∈ TOKENS) :
    (env.fetchResult sym (cycleMon s env) = none →
      CycleEv.tokenError sym ∈ (cycle s env).2) ∧
    (∀ q, env.fetchResult sym (cycleMon s env) = some q →
      CycleEv.tokenRead sym q ∈ (cycle s env).2) := by
  have h := cycleTokens_covers env.fetchResult env.sellRuns (cycleMon s env)
    TOKENS s.tcg_sold sym addr hmem
  simpa only [cycle] using h

/-! ### Claim theorems -/

/-- Claim C1: at-most-once sell — once the sold flag is set after a
successful sell sequence, no later poll cycle ever invokes the sell
executor again, regardless of later market-cap readings,
and the flag stays set. -/
theorem C1_at_most_once_sell (s : LoopState) (envs : List CycleEnv)
    (h : s.tcg_sold = true) :
    ((run s envs).2.map invokeCount).sum = 0 ∧
    (run s envs).1.tcg_sold = true :=
  ⟨(run_sold envs s h).2, (run_sold envs s h).1⟩

/-- Witness for C1: from a sold state, a cycle whose TCG market cap is
far above the trigger still produces zero executor invocations. -/
theorem C1_witness :
    stateSold.tcg_sold = true ∧
    (((run stateSold [envHighCap]).2.map invokeCount).sum = 0 ∧
     (run stateSold [envHighCap]).1.tcg_sold = true) :=
  ⟨rfl, C1_at_most_once_sell stateSold [envHighCap] rfl⟩

/-- Claim C2 counterexample: a cache that was successfully populated
(price 5 at time 40, distinct from the cold initial `(0, 0)`) is stale at
time 100, and with both sources failing the getter still fails — so the
getter does not return a value whenever the cache has ever been
populated. -/
theorem C2_counterexample_stale_cache :
    ((5 : ℚ), (40 : ℚ)) ≠ ((0 : ℚ), (0 : ℚ)) ∧
    get_mon_usd_price ⟨100, none, none⟩ ((5 : ℚ), (40 : ℚ)) = none :=
  ⟨by decide, by
    simp only [get_mon_usd_price]
    norm_num [MON_PRICE_TTL]⟩

/-- Claim C2, amended: the getter fails exactly when both sources fail
and the cached entry is absent or older than the TTL; whenever the cached
entry is younger than the TTL the cached value is returned without any
fetch.  A populated-but-stale cache does not prevent failure (the stale
value is reused by the caller, not by the getter). -/
theorem C2_fail_iff_stale_and_both_fail (env : PriceFetchEnv)
    (cache : ℚ × ℚ) :
    (get_mon_usd_price env cache = none ↔
      env.binance = none ∧ env.coingecko = none ∧
        MON_PRICE_TTL ≤ env.now - cache.2) ∧
    (env.now - cache.2 < MON_PRICE_TTL →
      get_mon_usd_price env cache = some (cache.1, cache)) := by
  constructor
  · by_cases ht : env.now - cache.2 < MON_PRICE_TTL
    · simp only [get_mon_usd_price, if_pos ht]
      simp [not_le.mpr ht]
    · simp only [get_mon_usd_price, if_neg ht]
      cases hb : env.binance with
      | some p => simp
      | none =>
        cases hc : env.coingecko with
        | some p => simp [not_lt.mp ht]
        | none => simp [not_lt.mp ht]
  · intro ht
    simp [get_mon_usd_price, if_pos ht]

/-- Witness for the amended C2: a cache entry 10 seconds old is served
as-is even though both sources would fail. -/
theorem C2_witness :
    ((50 : ℚ) - 40 < MON_PRICE_TTL) ∧
    get_mon_usd_price ⟨50, none, none⟩ ((5 : ℚ), (40 : ℚ)) =
      some (5, (5, 40)) :=
  ⟨by norm_num [MON_PRICE_TTL],
   (C2_fail_iff_stale_and_both_fail ⟨50, none, none⟩ (5, 40)).2
     (by norm_num [MON_PRICE_TTL])⟩

/-- Claim C3: bounded retry — the trigger-cycle retry loop invokes the
executor at most 3 times; each success pattern stops at the first
successful attempt with a 3-second sleep recorded between consecutive
failed attempts; a first-attempt-level success sets the sold flag; and
when all 3 attempts fail the cycle performs exactly 3 invocations and
leaves the sold flag unset, so the full sequence is eligible again on the
next cycle. -/
theorem C3_bounded_retry :
    (∀ runs : ℕ → Option SellEnv,
      invokeCount (runAttempts runs attemptRange).2 ≤ 3) ∧
    (∀ (runs : ℕ → Option SellEnv) (e : SellEnv), runs 1 = some e →
      runAttempts runs attemptRange = (true, [.sellInvoke 1])) ∧
    (∀ (runs : ℕ → Option SellEnv) (e : SellEnv),
      runs 1 = none → runs 2 = some e →
      runAttempts runs attemptRange =
        (true, [.sellInvoke 1, .sleepRetry 3, .sellInvoke 2])) ∧
    (∀ (runs : ℕ → Option SellEnv) (e : SellEnv),
      runs 1 = none → runs 2 = none → runs 3 = some e →
      runAttempts runs attemptRange =
        (true, [.sellInvoke 1, .sleepRetry 3, .sellInvoke 2, .sleepRetry 3,
                .sellInvoke 3])) ∧
    (∀ runs : ℕ → Option SellEnv,
      runs 1 = none → runs 2 = none → runs 3 = none →
      runAttempts runs attemptRange =
        (false, [.sellInvoke 1, .sleepRetry 3, .sellInvoke 2, .sleepRetry 3,
                 .sellInvoke 3])) ∧
    (∀ (s : LoopState) (env : CycleEnv) (q : ℚ), s.tcg_sold = false →
      env.fetchResult "TCG" (cycleMon s env) = some q → TCG_SELL_AT ≤ q →
      (runAttempts env.sellRuns attemptRange).1 = true →
      (cycle s env).1.tcg_sold = true) ∧
    (∀ (s : LoopState) (env : CycleEnv) (q : ℚ), s.tcg_sold = false →
      env.fetchResult "TCG" (cycleMon s env) = some q → TCG_SELL_AT ≤ q →
      env.sellRuns 1 = none → env.sellRuns 2 = none → env.sellRuns 3 = none →
      invokeCount (cycle s env).2 = 3 ∧ (cycle s env).1.tcg_sold = false) := by
  refine ⟨runAttempts_le_three,
    fun runs e h1 => runAttempts_one runs e h1,
    fun runs e h1 h2 => runAttempts_two runs e h1 h2,
    fun runs e h1 h2 h3 => runAttempts_three runs e h1 h2 h3,
    fun runs h1 h2 h3 => runAttempts_all_fail runs h1 h2 h3,
    ?_, ?_⟩
  · intro s env q h0 hf hq hsucc
    rw [(cycle_trigger s env q h0 hf hq).1, hsucc]
  · intro s env q h0 hf hq h1 h2 h3
    have ht := cycle_trigger s env q h0 hf hq
    rw [runAttempts_all_fail env.sellRuns h1 h2 h3] at ht
    constructor
    · rw [ht.2]
      decide
    · rw [ht.1]

/-- Witness for C3: a concrete triggered cycle whose three attempts all
fail performs exactly 3 invocations and leaves the flag unset. -/
theorem C3_witness :
    stateFresh.tcg_sold = false ∧
    envTriggerAllFail.fetchResult "TCG"
      (cycleMon stateFresh envTriggerAllFail) = some 1000000 ∧
    TCG_SELL_AT ≤ (1000000 : ℚ) ∧
    envTriggerAllFail.sellRuns 1 = none ∧
    envTriggerAllFail.sellRuns 2 = none ∧
    envTriggerAllFail.sellRuns 3 = none ∧
    (invokeCount (cycle stateFresh envTriggerAllFail).2 = 3 ∧
     (cycle stateFresh envTriggerAllFail).1.tcg_sold = false) :=
  ⟨rfl, by decide, by decide, rfl, rfl, rfl,
   C3_bounded_retry.2.2.2.2.2.2 stateFresh envTriggerAllFail 1000000 rfl
     (by decide) (by decide) rfl rfl rfl⟩

/-- Claim C4: in every sell run that submits transactions (nonzero
balance), the trace submits the approval, awaits its receipt, then reads
the nonce fresh and submits the sell with that fresh nonce, which differs
from the approval nonce. -/
theorem C4_approval_confirmed_before_sell (env : SellEnv) (c0 : ChainState)
    (h : ¬ env.balance = 0) :
    ∃ (nA nS : ℕ) (pre : List SellEvent),
      (sell_all_tcg env c0).2.2 =
        pre ++
          [SellEvent.submitApprove env.router env.balance nA,
           SellEvent.waitReceipt,
           SellEvent.readNonce nS,
           SellEvent.submitSell env.balance (amount_out_min env.mon_out)
             (env.now + 300) nS,
           SellEvent.waitReceipt] ∧
      nS ≠ nA := by
  refine ⟨c0.txCount, c0.txCount + 1,
    [SellEvent.readBalance env.balance, SellEvent.quote env.router env.mon_out,
     SellEvent.readNonce c0.txCount], ?_, Nat.succ_ne_self _⟩
  simp [sell_all_tcg, h, getTransactionCount, sendAndWaitReceipt]

/-- Witness for C4 on a concrete nonzero-balance environment. -/
theorem C4_witness :
    ¬ envLive.balance = 0 ∧
    (∃ (nA nS : ℕ) (pre : List SellEvent),
      (sell_all_tcg envLive ⟨9⟩).2.2 =
        pre ++
          [SellEvent.submitApprove envLive.router envLive.balance nA,
           SellEvent.waitReceipt,
           SellEvent.readNonce nS,
           SellEvent.submitSell envLive.balance (amount_out_min envLive.mon_out)
             (envLive.now + 300) nS,
           SellEvent.waitReceipt] ∧
      nS ≠ nA) :=
  ⟨by decide, C4_approval_confirmed_before_sell envLive ⟨9⟩ (by decide)⟩

/-- Claim C5: every `amountOutMin` passed to a sell transaction equals
`mon_out * 95 / 100` in integer arithmetic, which is exactly the
mathematical floor of `Q * 95 / 100` for the quote `Q`. -/
theorem C5_slippage_floor (env : SellEnv) (c0 : ChainState) :
    ∀ m ∈ sellMinOuts (sell_all_tcg env c0).2.2,
      m = env.mon_out * 95 / 100 ∧
      (m : ℤ) = ⌊((env.mon_out : ℚ) * 95) / 100⌋ := by
  intro m hm
  by_cases h : env.balance = 0
  · simp [sell_all_tcg, h, sellMinOuts] at hm
  · simp [sell_all_tcg, h, sellMinOuts] at hm
    subst hm
    exact ⟨rfl, min_out_floor env.mon_out⟩

/-- Witness for C5: the quote 1234 yields a minimum output of exactly
`floor(1234 * 95 / 100) = 1172`. -/
theorem C5_witness :
    1172 ∈ sellMinOuts (sell_all_tcg envLive ⟨9⟩).2.2 ∧
    (1172 = envLive.mon_out * 95 / 100 ∧
     ((1172 : ℕ) : ℤ) = ⌊((envLive.mon_out : ℚ) * 95) / 100⌋) :=
  ⟨by decide, C5_slippage_floor envLive ⟨9⟩ 1172 (by decide)⟩

/-- Claim C6: a zero balance at sell time yields the non-error
"nothing to sell" outcome, submits no transaction whatsoever, and leaves
the chain (nonce) state untouched. -/
theorem C6_zero_balance_no_transactions (env : SellEnv) (c0 : ChainState)
    (h : env.balance = 0) :
    (sell_all_tcg env c0).1 = SellOutcome.nothingToSell ∧
    submitCount (sell_all_tcg env c0).2.2 = 0 ∧
    (sell_all_tcg env c0).2.1 = c0 := by
  refine ⟨?_, ?_, ?_⟩ <;>
    simp [sell_all_tcg, h, submitCount, isSubmitEvent, List.countP_cons,
      List.countP_nil]

/-- Witness for C6 on a concrete zero-balance environment. -/
theorem C6_witness :
    envZeroBalance.balance = 0 ∧
    ((sell_all_tcg envZeroBalance ⟨9⟩).1 = SellOutcome.nothingToSell ∧
     submitCount (sell_all_tcg envZeroBalance ⟨9⟩).2.2 = 0 ∧
     (sell_all_tcg envZeroBalance ⟨9⟩).2.1 = ⟨9⟩) :=
  ⟨rfl, C6_zero_balance_no_transactions envZeroBalance ⟨9⟩ rfl⟩

/-- Claim C7: every market-data read returns market cap
`unitPrice * totalSupply * referencePrice` (and owned value
`balance * unitPrice * referencePrice`); in the concrete scenario — MON at
125.40 USD, a 1000-token quote for the 1-MON probe, total supply 1,000,000
tokens — the market cap is exactly 125,400 USD, below the 900,000
trigger. -/
theorem C7_market_cap_product :
    (∀ (env : MarketEnv) (mon_usd : ℚ),
      fetch_price env mon_usd =
        some ⟨mon_per_token env.amount_out *
                ((env.total_supply_raw : ℚ) / WEI) * mon_usd,
              ((env.balance_raw : ℚ) / WEI) *
                mon_per_token env.amount_out * mon_usd⟩) ∧
    fetch_price ⟨1000 * 10 ^ 18, 1000000 * 10 ^ 18, 0⟩ (627 / 5) =
      some ⟨125400, 0⟩ ∧
    ¬ TCG_SELL_AT ≤ (125400 : ℚ) := by
  refine ⟨fun env mon_usd => fetch_price_eq env mon_usd, ?_, by decide⟩
  rw [fetch_price_eq]
  norm_num [mon_per_token, tokens_per_mon, WEI]

/-- Claim C8: a zero lens quote does not make the market-data read fail —
the guarded reciprocal yields a unit price of 0, hence a snapshot with
market cap 0 and owned value 0. -/
theorem C8_zero_quote_guarded (env : MarketEnv) (mon_usd : ℚ)
    (h : env.amount_out = 0) :
    fetch_price env mon_usd = some ⟨0, 0⟩ := by
  rw [fetch_price_eq]
  have hz : mon_per_token env.amount_out = 0 := by
    simp [mon_per_token, tokens_per_mon, h]
  rw [hz]
  simp

/-- Witness for C8 at a concrete zero-quote environment. -/
theorem C8_witness :
    (⟨0, 5, 7⟩ : MarketEnv).amount_out = 0 ∧
    fetch_price ⟨0, 5, 7⟩ 3 = some ⟨0, 0⟩ :=
  ⟨rfl, C8_zero_quote_guarded ⟨0, 5, 7⟩ 3 rfl⟩

/-- Claim C9: per-token failure isolation — in any cycle, every monitored
token is read and its read outcome (error or snapshot) appears in the
trace of the cycle independently of the other token outcomes, and the loop
always proceeds: a run over any list of cycle environments performs
exactly one cycle per environment. -/
theorem C9_per_token_isolation :
    (∀ (s : LoopState) (env : CycleEnv) (sym addr : String),
      (sym, addr) ∈ TOKENS →
      (env.fetchResult sym (cycleMon s env) = none →
        CycleEv.tokenError sym ∈ (cycle s env).2) ∧
      (∀ q, env.fetchResult sym (cycleMon s env) = some q →
        CycleEv.tokenRead sym q ∈ (cycle s env).2)) ∧
    (∀ (s : LoopState) (envs : List CycleEnv),
      ((run s envs).2).length = envs.length) :=
  ⟨fun s env sym addr hmem => cycle_covers s env sym addr hmem,
   fun s envs => run_length envs s⟩

/-- Witness for C9: in a cycle where the TCG read raises, MONA is still
read and its snapshot appears in the trace. -/
theorem C9_witness :
    (("MONA", "0x2CB31c268819EE133De378A3A2E087F0b0eC7777") ∈ TOKENS) ∧
    envTcgFails.fetchResult "MONA" (cycleMon stateFresh envTcgFails) =
      some 5 ∧
    CycleEv.tokenRead "MONA" 5 ∈ (cycle stateFresh envTcgFails).2 :=
  ⟨by decide, by decide,
   (C9_per_token_isolation.1 stateFresh envTcgFails "MONA"
     "0x2CB31c268819EE133De378A3A2E087F0b0eC7777" (by decide)).2 5 (by decide)⟩

/-- Claim C10 (implicit): when the trigger fires in a cycle and the first
executor invocation runs on a zero wallet balance, the executor returns
the non-error "nothing to sell" outcome, the controller nevertheless sets
the sold flag, and from then on no later cycle ever invokes the executor
again — even if the wallet later holds a nonzero balance while the market
cap stays above the threshold. -/
theorem C10_zero_balance_marks_sold (s : LoopState) (env : CycleEnv)
    (e : SellEnv) (c : ChainState) (envs : List CycleEnv)
    (_h0 : s.tcg_sold = false) (h1 : env.sellRuns 1 = some e)
    (h2 : e.balance = 0)
    (h3 : CycleEv.sellInvoke 1 ∈ (cycle s env).2) :
    (sell_all_tcg e c).1 = SellOutcome.nothingToSell ∧
    (cycle s env).1.tcg_sold = true ∧
    ((run (cycle s env).1 envs).2.map invokeCount).sum = 0 := by
  have h3x : CycleEv.sellInvoke 1 ∈
      (cycleTokens env.fetchResult env.sellRuns (cycleMon s env) TOKENS
        s.tcg_sold).2 := h3
  have hsold : (cycle s env).1.tcg_sold = true :=
    cycleTokens_invoke_sold env.fetchResult env.sellRuns (cycleMon s env) e h1
      TOKENS s.tcg_sold 1 h3x
  exact ⟨by simp [sell_all_tcg, h2], hsold, (run_sold envs _ hsold).2⟩

/-- Witness for C10: a concrete triggered cycle with a zero-balance sell
environment sets the sold flag and suppresses all later invocations. -/
theorem C10_witness :
    stateFresh.tcg_sold = false ∧
    envHighCap.sellRuns 1 = some envZeroBalance ∧
    envZeroBalance.balance = 0 ∧
    CycleEv.sellInvoke 1 ∈ (cycle stateFresh envHighCap).2 ∧
    ((sell_all_tcg envZeroBalance ⟨9⟩).1 = SellOutcome.nothingToSell ∧
     (cycle stateFresh envHighCap).1.tcg_sold = true ∧
     ((run (cycle stateFresh envHighCap).1 [envHighCap]).2.map
        invokeCount).sum = 0) :=
  ⟨rfl, rfl, rfl, by decide,
   C10_zero_balance_marks_sold stateFresh envHighCap envZeroBalance ⟨9⟩
     [envHighCap] rfl rfl rfl (by decide)⟩

end Monbot
